import Mathlib

/-!
Shallow embedding of the `mailgun46` crate (a minimal Mailgun HTTP client):
`src/email.rs` (the `Email` value, `EmailBody`, `EmailBuilder`),
`src/lib.rs` (the `Mailer`: construction and the `send` request/response
logic) and `src/error.rs` (the error taxonomy).  Pure data and control flow
are translated directly; the HTTP transport, the URL parser of the `url`
crate and the JSON text codec are external collaborators and appear as
explicit function parameters, while everything the crate itself computes
(string formatting, base64, form encoding, response dispatch) is embedded
executably.
-/

namespace Mailgun46

/-- Errors from `EmailBuilder::build` (`error.rs` `BuildError`);
`MissingField` carries the static field name. -/
inductive BuildError where
  | MissingField (field : String)
  deriving DecidableEq, Repr

/-- Errors from building a `Mailer` instance (`error.rs` `SetupError`). -/
inductive SetupError where
  | EnvVarMissing (var : String)
  | InvalidVar (var : String) (msg : String)
  | Build (msg : String)
  deriving DecidableEq, Repr

/-- Errors from sending (`error.rs` `SendError`).  `Http` wraps a transport /
decode diagnostic (`From<reqwest::Error>`).  The `Non200Reply` variant is
embedded with the two fields `status` and `body` exactly as `Mailer::send`
in `lib.rs` constructs it (`SendError::Non200Reply { status, body }`);
note that the declaration in `error.rs` instead reads
`Non200Reply(reqwest::StatusCode)` with no body field, so the two files
disagree — the construction site in `lib.rs` is followed here. -/
inductive SendError where
  | Http (msg : String)
  | Non200Reply (status : Nat) (body : String)
  deriving DecidableEq, Repr

/-- Body of an email (`email.rs` `EmailBody`): a struct with two
independently optional fields (not a two-case sum). -/
structure EmailBody where
  html : Option String
  text : Option String
  deriving DecidableEq, Repr

/-- Both fields `None` (`EmailBody::default()`). -/
def EmailBody.default : EmailBody := { html := none, text := none }

/-- Finalized email value (`email.rs` `Email`), produced by the builder.
`from` is optional (filled from the `Mailer` at send time when absent);
`body` is optional and `#[serde(flatten)]`-ed into the envelope. -/
structure Email where
  «from» : Option String
  «to» : String
  subject : String
  body : Option EmailBody
  deriving DecidableEq, Repr

/-- Mutable accumulator for composing an email (`email.rs` `EmailBuilder`). -/
structure EmailBuilder where
  «from» : Option String
  recipients : List String
  subject : Option String
  body : Option EmailBody
  deriving DecidableEq, Repr

/-- Every field empty (`EmailBuilder::default()`). -/
def EmailBuilder.new : EmailBuilder :=
  { «from» := none, recipients := [], subject := none, body := none }

/-- Set (replace) the optional sender (`EmailBuilder::from`). -/
def EmailBuilder.set_from (b : EmailBuilder) (f : String) : EmailBuilder :=
  { b with «from» := some f }

/-- Append one recipient (`EmailBuilder::to`). -/
def EmailBuilder.«to» (b : EmailBuilder) (recipient : String) : EmailBuilder :=
  { b with recipients := b.recipients ++ [recipient] }

/-- Set (replace) the subject (`EmailBuilder::subject`). -/
def EmailBuilder.set_subject (b : EmailBuilder) (s : String) : EmailBuilder :=
  { b with subject := some s }

/-- Replace the whole body (`EmailBuilder::body`). -/
def EmailBuilder.set_body (b : EmailBuilder) (body : EmailBody) : EmailBuilder :=
  { b with body := some body }

/-- Take the existing body (or the default one), set only its `text`
field, and store it back (`EmailBuilder::text_body`). -/
def EmailBuilder.text_body (b : EmailBuilder) (text : String) : EmailBuilder :=
  let body := b.body.getD EmailBody.default
  { b with body := some { body with text := some text } }

/-- Take the existing body (or the default one), set only its `html`
field, and store it back (`EmailBuilder::html_body`). -/
def EmailBuilder.html_body (b : EmailBuilder) (html : String) : EmailBuilder :=
  let body := b.body.getD EmailBody.default
  { b with body := some { body with html := some html } }

/-- Rust's `slice::join` on `Vec<String>` with separator `","`
(`self.recipients.join(",")`). -/
def joinComma : List String → String
  | [] => ""
  | [x] => x
  | x :: y :: rest => x ++ "," ++ joinComma (y :: rest)

/-- Finalize the builder (`EmailBuilder::build`): fail with
`MissingField("to")` when no recipient was appended, otherwise join the
recipients with commas and default the subject to `"no subject"`. -/
def EmailBuilder.build (b : EmailBuilder) : Except BuildError Email :=
  if b.recipients.isEmpty then
    .error (.MissingField "to")
  else
    .ok { «from» := b.«from»
        , «to» := joinComma b.recipients
        , subject := b.subject.getD "no subject"
        , body := b.body }

/-- One builder call, as data, so that arbitrary call sequences can be
quantified over. -/
inductive BuilderOp where
  | set_from (f : String)
  | «to» (recipient : String)
  | set_subject (s : String)
  | set_body (body : EmailBody)
  | text_body (text : String)
  | html_body (html : String)
  deriving DecidableEq, Repr

/-- Apply one builder call. -/
def applyOp (b : EmailBuilder) : BuilderOp → EmailBuilder
  | .set_from f => b.set_from f
  | .«to» r => b.«to» r
  | .set_subject s => b.set_subject s
  | .set_body body => b.set_body body
  | .text_body t => b.text_body t
  | .html_body h => b.html_body h

/-- Apply a sequence of builder calls, left to right, starting from a
given builder. -/
def applyOps (b : EmailBuilder) (ops : List BuilderOp) : EmailBuilder :=
  ops.foldl applyOp b

/-- The recipients appended by a sequence of calls, in order. -/
def toArgs (ops : List BuilderOp) : List String :=
  ops.filterMap fun op => match op with
    | .«to» r => some r
    | _ => none

/-- The wire serialization of an `Email` as the key/value pairs of the
`application/x-www-form-urlencoded` body produced by
`reqwest::RequestBuilder::form(&email)` via `serde_urlencoded`: the
derived `Serialize` emits the fields in declaration order (`from`, `to`,
`subject`, then the `#[serde(flatten)]`-ed body's `html` and `text`), and
`serde_urlencoded` skips a pair whose value is `None`.  Percent-escaping
of the values is the codec's concern and is not modelled. -/
def Email.formPairs (e : Email) : List (String × String) :=
  (match e.«from» with
   | some f => [("from", f)]
   | none => []) ++
  [("to", e.«to»), ("subject", e.subject)] ++
  (match e.body with
   | none => []
   | some b =>
     (match b.html with
      | some h => [("html", h)]
      | none => []) ++
     (match b.text with
      | some t => [("text", t)]
      | none => []))

/-- The subjects set by a sequence of calls, in order. -/
def subjectArgs (ops : List BuilderOp) : List String :=
  ops.filterMap fun op => match op with
    | .set_subject s => some s
    | _ => none

/-! ### Base64 and the authorization header (`lib.rs`) -/

/-- The UTF-8 encoding of one character, as byte values (Rust `String`s
are UTF-8, and `base64::encode` consumes the string's bytes). -/
def charUtf8 (c : Char) : List Nat :=
  let n := c.toNat
  if n < 0x80 then [n]
  else if n < 0x800 then [0xC0 + n / 64, 0x80 + n % 64]
  else if n < 0x10000 then
    [0xE0 + n / 4096, 0x80 + n / 64 % 64, 0x80 + n % 64]
  else
    [0xF0 + n / 262144, 0x80 + n / 4096 % 64, 0x80 + n / 64 % 64,
     0x80 + n % 64]

/-- The UTF-8 bytes of a string. -/
def utf8Bytes (s : String) : List Nat :=
  s.data.foldr (fun c acc => charUtf8 c ++ acc) []

/-- The standard base64 alphabet used by `base64::encode`. -/
def base64Alphabet : List Char :=
  "ABCDEFGHIJKLMNOPQRSTUVWXYZabcdefghijklmnopqrstuvwxyz0123456789+/".data

/-- The base64 digit for a 6-bit value. -/
def b64Char (n : Nat) : Char := base64Alphabet.getD n 'A'

/-- Standard base64 with `=` padding over a byte list (the semantics of
`base64::encode`). -/
def base64EncodeBytes : List Nat → List Char
  | [] => []
  | [a] => [b64Char (a / 4), b64Char (a % 4 * 16), '=', '=']
  | [a, b] =>
      [b64Char (a / 4), b64Char (a % 4 * 16 + b / 16), b64Char (b % 16 * 4),
       '=']
  | a :: b :: c :: rest =>
      b64Char (a / 4) :: b64Char (a % 4 * 16 + b / 16) ::
        b64Char (b % 16 * 4 + c / 64) :: b64Char (c % 64) ::
        base64EncodeBytes rest

/-- Base64 of a string's UTF-8 bytes (`base64::encode`). -/
def base64Encode (s : String) : String :=
  String.mk (base64EncodeBytes (utf8Bytes s))

example : base64Encode "api:tomatotoken" = "YXBpOnRvbWF0b3Rva2Vu" := by decide

/-- Whether a byte is legal inside an HTTP header value: the `http` crate's
`HeaderValue` accepts horizontal tab and every byte from 32 up, except
DEL (127). -/
def headerByteOk (b : Nat) : Bool :=
  b == 9 || (32 ≤ b && b ≠ 127 && b < 256)

/-- Header-value construction (`reqwest::header::HeaderValue::from_str`):
succeeds exactly when every byte of the string is a legal header-value
byte. -/
def headerValueFromStr (s : String) : Except String String :=
  if (utf8Bytes s).all headerByteOk then .ok s
  else .error "failed to parse header value"

/-! ### The `Mailer` (`lib.rs`) -/

/-- Opaque wrapper around the provider-assigned identifier (`MessageId`). -/
structure MessageId where
  id : String
  deriving DecidableEq, Repr

/-- Fixed default Mailgun base endpoint (`static MG_BASE_URL` in `lib.rs`). -/
def MG_BASE_URL : String := "https://api.eu.mailgun.net"

/-- The configuration a `Mailer` holds after construction: the default
sender, the parsed messages URL, and the authorization header value that
`new_with_mg_url` installs in the client's default headers (the transport
handle itself is an external collaborator and carries no further logic
visible to this crate). -/
structure Mailer where
  «from» : String
  messages_url : String
  authHeader : String
  deriving DecidableEq, Repr

/-- The URL parser of `str::parse::<reqwest::Url>`: an external
collaborator, passed in as a function returning either the parsed URL or
the error's display text (`err.to_string()`). -/
def UrlParser : Type := String → Except String String

/-- Primary constructor (`Mailer::new_with_mg_url`): compute the default sender
`noreply@<domain>`, parse `"<mg_url>/v3/<domain>/messages"` (failure is
`SetupError::InvalidVar("domain", msg)`), base64-encode `api:<token>` and
build the `Basic` authorization header (failure of
`HeaderValue::from_str` is `SetupError::Build(msg)`).  The
`reqwest::Client::builder().build()` step only installs the user agent
and default headers; its own failure mode (TLS backend initialization) is
transport-internal and not modelled. -/
def Mailer.new_with_mg_url (parseUrl : UrlParser)
    (mg_url domain token : String) : Except SetupError Mailer :=
  let «from» := "noreply@" ++ domain
  match parseUrl (mg_url ++ "/v3/" ++ domain ++ "/messages") with
  | .error msg => .error (.InvalidVar "domain" msg)
  | .ok messages_url =>
    let token64 := base64Encode ("api:" ++ token)
    match headerValueFromStr ("Basic " ++ token64) with
    | .error msg => .error (.Build msg)
    | .ok auth => .ok { «from», messages_url, authHeader := auth }

/-- Delegation to `new_with_mg_url` with `MG_BASE_URL` (`Mailer::new`). -/
def Mailer.new (parseUrl : UrlParser) (domain token : String) :
    Except SetupError Mailer :=
  Mailer.new_with_mg_url parseUrl MG_BASE_URL domain token

/-- Environment-based constructor (`Mailer::from_env`): read
`MAILER46_DOMAIN` and `MAILER46_TOKEN` from
the process environment (modelled as a partial map from variable names to
values), failing with `EnvVarMissing` on the first absent one, then
delegate to `Mailer::new`. -/
def Mailer.from_env (parseUrl : UrlParser) (env : String → Option String) :
    Except SetupError Mailer :=
  match env "MAILER46_DOMAIN" with
  | none => .error (.EnvVarMissing "MAILER46_DOMAIN")
  | some domain =>
    match env "MAILER46_TOKEN" with
    | none => .error (.EnvVarMissing "MAILER46_TOKEN")
    | some token => Mailer.new parseUrl domain token

/-! ### Sending (`lib.rs` `Mailer::send`, `email.rs` `Email::send`) -/

/-- A JSON value, as delivered by the JSON codec (`serde_json`), used to
state what `res.json::<MailReply>()` accepts. -/
inductive Json where
  | null
  | bool (b : Bool)
  | num (n : Int)
  | str (s : String)
  | arr (xs : List Json)
  | obj (fields : List (String × Json))

/-- Transient reply structure (`MailReply`); only `id` is declared,
so the derived `Deserialize` requires an object with exactly one `id`
field holding a string and ignores any unknown fields. -/
structure MailReply where
  id : String
  deriving DecidableEq, Repr

/-- The derived `serde::Deserialize` for `MailReply` on a JSON value:
the input must be an object, the `id` field must occur exactly once (a
duplicate is an error) and hold a string; all other fields are ignored. -/
def MailReply.deserialize (j : Json) : Option MailReply :=
  match j with
  | .obj fields =>
    match fields.filter (fun p => p.1 == "id") with
    | [(_, .str s)] => some { id := s }
    | _ => none
  | _ => none

/-- An HTTP response as the transport hands it back: the status code and
the raw body text. -/
structure HttpResponse where
  status : Nat
  body : String
  deriving DecidableEq, Repr

/-- The request `Mailer::send` issues: a POST of the form-encoded email
to the messages URL, with the client's default authorization header. -/
structure HttpRequest where
  url : String
  authHeader : String
  formBody : List (String × String)
  deriving DecidableEq, Repr

/-- The request construction inside `Mailer::send`
(`self.client.post(self.messages_url.clone()).form(&email)`). -/
def Mailer.request (m : Mailer) (email : Email) : HttpRequest :=
  { url := m.messages_url, authHeader := m.authHeader
  , formBody := email.formPairs }

/-- The JSON text codec (`serde_json` under `Response::json`): an
external collaborator turning the body text into a JSON value, `none`
when the text is not valid JSON. -/
def JsonCodec : Type := String → Option Json

/-- The response-interpretation half of `Mailer::send`: a non-200 status
fails with `Non200Reply` carrying the status and the body read as text
(`String::from_utf8_lossy` over the body bytes is the identity on the
valid UTF-8 text modelled here); a 200 status parses the body as a
`MailReply`, a decode failure surfacing through
`From<reqwest::Error>` as `SendError::Http`. -/
def handleResponse (jsonParse : JsonCodec) (res : HttpResponse) :
    Except SendError MessageId :=
  if res.status ≠ 200 then
    .error (.Non200Reply res.status res.body)
  else
    match jsonParse res.body with
    | none => .error (.Http "error decoding response body")
    | some j =>
      match MailReply.deserialize j with
      | none => .error (.Http "error decoding response body")
      | some reply => .ok { id := reply.id }

/-- The transport (`reqwest`): an external collaborator that performs the
POST and yields either a response or a transport-level diagnostic
(surfacing through `From<reqwest::Error>` as `SendError::Http`). -/
def Transport : Type := HttpRequest → Except String HttpResponse

/-- Send an email (`Mailer::send`): build the request, perform the
exchange, interpret the response. -/
def Mailer.send (jsonParse : JsonCodec) (transport : Transport)
    (m : Mailer) (email : Email) : Except SendError MessageId :=
  match transport (m.request email) with
  | .error msg => .error (.Http msg)
  | .ok res => handleResponse jsonParse res

/-- The sender-defaulting step of `Email::send`: when `from` is `None`,
replace it with the mailer's default sender. -/
def Email.fillFrom (e : Email) (m : Mailer) : Email :=
  match e.«from» with
  | none => { e with «from» := some m.«from» }
  | some _ => e

/-- Send, from the email's side (`Email::send`): default the sender, then
hand the email to `Mailer::send`. -/
def Email.send (jsonParse : JsonCodec) (transport : Transport)
    (e : Email) (m : Mailer) : Except SendError MessageId :=
  Mailer.send jsonParse transport m (e.fillFrom m)

/-! ### Header-value validity of the computed authorization header -/

/-- Every character of the base64 alphabet is visible ASCII. -/
theorem base64Alphabet_ok :
    ∀ c ∈ base64Alphabet, 32 ≤ c.toNat ∧ c.toNat < 127 := by decide

/-- Every base64 digit is drawn from the alphabet. -/
theorem b64Char_mem (n : Nat) : b64Char n ∈ base64Alphabet := by
  unfold b64Char
  by_cases h : n < base64Alphabet.length
  · rw [List.getD_eq_getElem base64Alphabet 'A' h]
    exact List.getElem_mem h
  · rw [List.getD_eq_default base64Alphabet 'A' (by omega)]
    decide

/-- Every base64 digit is visible ASCII. -/
theorem b64Char_ok (n : Nat) :
    32 ≤ (b64Char n).toNat ∧ (b64Char n).toNat < 127 :=
  base64Alphabet_ok _ (b64Char_mem n)

/-- Every character a base64 encoding produces (digits and padding) is
visible ASCII. -/
theorem base64EncodeBytes_ok :
    ∀ bs : List Nat, ∀ c ∈ base64EncodeBytes bs,
      32 ≤ c.toNat ∧ c.toNat < 127
  | [] => by simp [base64EncodeBytes]
  | [a] => by
    intro c hc
    simp only [base64EncodeBytes, List.mem_cons, List.not_mem_nil,
      or_false] at hc
    rcases hc with h | h | h | h
    · subst h; exact b64Char_ok _
    · subst h; exact b64Char_ok _
    · subst h; decide
    · subst h; decide
  | [a, b] => by
    intro c hc
    simp only [base64EncodeBytes, List.mem_cons, List.not_mem_nil,
      or_false] at hc
    rcases hc with h | h | h | h
    · subst h; exact b64Char_ok _
    · subst h; exact b64Char_ok _
    · subst h; exact b64Char_ok _
    · subst h; decide
  | a :: b :: d :: rest => by
    intro c hc
    simp only [base64EncodeBytes, List.mem_cons] at hc
    rcases hc with h | h | h | h | h
    · subst h; exact b64Char_ok _
    · subst h; exact b64Char_ok _
    · subst h; exact b64Char_ok _
    · subst h; exact b64Char_ok _
    · exact base64EncodeBytes_ok rest c h

/-- An ASCII character is its own single UTF-8 byte. -/
theorem charUtf8_ascii (c : Char) (h : c.toNat < 128) :
    charUtf8 c = [c.toNat] := by
  simp [charUtf8, h]

/-- All UTF-8 bytes of a string of visible-ASCII characters pass the
header-value byte check. -/
theorem utf8Bytes_all_ok (cs : List Char)
    (h : ∀ c ∈ cs, 32 ≤ c.toNat ∧ c.toNat < 127) :
    ∀ b ∈ utf8Bytes (String.mk cs), headerByteOk b = true := by
  induction cs with
  | nil => simp [utf8Bytes]
  | cons c cs ih =>
    intro b hb
    have hc := h c (by simp)
    have hrest : ∀ x ∈ cs, 32 ≤ x.toNat ∧ x.toNat < 127 :=
      fun x hx => h x (by simp [hx])
    simp only [utf8Bytes, List.foldr_cons] at hb
    rw [charUtf8_ascii c (by omega)] at hb
    simp only [List.cons_append, List.nil_append, List.mem_cons] at hb
    rcases hb with hb | hb
    · subst hb
      simp [headerByteOk]
      omega
    · exact ih hrest b hb

/-- The authorization value `new_with_mg_url` computes is always a legal
header value: `HeaderValue::from_str` cannot fail on
`Basic <base64(...)>`. -/
theorem headerValue_basic_ok (x : String) :
    headerValueFromStr ("Basic " ++ base64Encode x) =
      .ok ("Basic " ++ base64Encode x) := by
  unfold headerValueFromStr
  have hall : (utf8Bytes ("Basic " ++ base64Encode x)).all headerByteOk = true := by
    rw [List.all_eq_true]
    have hdata : ("Basic " ++ base64Encode x).data =
        "Basic ".data ++ base64EncodeBytes (utf8Bytes x) := by
      rw [String.data_append]; rfl
    have hchars : ∀ c ∈ ("Basic " ++ base64Encode x).data,
        32 ≤ c.toNat ∧ c.toNat < 127 := by
      intro c hc
      rw [hdata, List.mem_append] at hc
      rcases hc with hc | hc
      · revert hc; revert c; decide
      · exact base64EncodeBytes_ok _ c hc
    have := utf8Bytes_all_ok ("Basic " ++ base64Encode x).data hchars
    intro b hb
    exact this b hb
  rw [hall]
  simp

/-! ### Builder state lemmas -/

/-- A call sequence appends exactly its `to` arguments, in order, to the
recipients. -/
theorem recipients_applyOps (ops : List BuilderOp) :
    ∀ b : EmailBuilder,
      (applyOps b ops).recipients = b.recipients ++ toArgs ops := by
  induction ops with
  | nil => intro b; simp [applyOps, toArgs]
  | cons op ops ih =>
    intro b
    rw [show applyOps b (op :: ops) = applyOps (applyOp b op) ops from rfl, ih]
    cases op <;>
      simp [toArgs, List.filterMap_cons, applyOp, EmailBuilder.set_from,
        EmailBuilder.«to», EmailBuilder.set_subject, EmailBuilder.set_body,
        EmailBuilder.text_body, EmailBuilder.html_body, List.append_assoc]

/-- The builder's subject after a call sequence: the last subject set, or
the starting builder's subject if no `set_subject` occurs. -/
theorem subject_applyOps (ops : List BuilderOp) :
    ∀ b : EmailBuilder,
      (applyOps b ops).subject =
        (subjectArgs ops).foldl (fun _ s => some s) b.subject := by
  induction ops with
  | nil => intro b; rfl
  | cons op ops ih =>
    intro b
    rw [show applyOps b (op :: ops) = applyOps (applyOp b op) ops from rfl, ih]
    cases op <;>
      simp [subjectArgs, List.filterMap_cons, applyOp, EmailBuilder.set_from,
        EmailBuilder.«to», EmailBuilder.set_subject, EmailBuilder.set_body,
        EmailBuilder.text_body, EmailBuilder.html_body]

/-- The comma-join of a non-empty recipient list is the empty string
exactly for the single empty recipient. -/
theorem joinComma_eq_empty_iff :
    ∀ l : List String, l ≠ [] → (joinComma l = "" ↔ l = [""])
  | [], h => absurd rfl h
  | [x], _ => by simp [joinComma]
  | x :: y :: rest, _ => by
    constructor
    · intro h
      exfalso
      have hlen := congrArg String.length h
      rw [joinComma, String.length_append, String.length_append] at hlen
      have hcomma : ("," : String).length = 1 := rfl
      simp [hcomma] at hlen
    · intro h
      simp at h

/-! ### The builder claims -/

/-- C3: `build` on any sequence of builder calls fails with
`MissingField("to")` exactly when no recipient was ever appended;
otherwise it returns the `Email` whose `to` is the comma-join of the
appended recipients in append order, whose subject is the builder's
subject defaulted to `"no subject"` — hence the placeholder whenever no
subject was ever set — and whose `from` and `body` are the builder's,
carried through unchanged. -/
theorem build_characterization (ops : List BuilderOp) :
    ((applyOps EmailBuilder.new ops).build = .error (.MissingField "to") ↔
      toArgs ops = []) ∧
    (toArgs ops ≠ [] →
      (applyOps EmailBuilder.new ops).build =
        .ok { «from» := (applyOps EmailBuilder.new ops).«from»
            , «to» := joinComma (toArgs ops)
            , subject :=
                ((applyOps EmailBuilder.new ops).subject).getD "no subject"
            , body := (applyOps EmailBuilder.new ops).body }) ∧
    (subjectArgs ops = [] →
      ((applyOps EmailBuilder.new ops).subject).getD "no subject" =
        "no subject") := by
  have hr : (applyOps EmailBuilder.new ops).recipients = toArgs ops := by
    simpa [EmailBuilder.new] using recipients_applyOps ops EmailBuilder.new
  refine ⟨?_, ?_, ?_⟩
  · unfold EmailBuilder.build
    rw [hr]
    cases h : toArgs ops with
    | nil => simp
    | cons a l => simp
  · intro hne
    unfold EmailBuilder.build
    rw [hr]
    cases h : toArgs ops with
    | nil => exact absurd h hne
    | cons a l => simp
  · intro hs
    rw [subject_applyOps, hs]
    rfl

/-- Witness for C3: a builder with exactly one recipient builds
successfully into the characterized email. -/
theorem build_characterization_witness :
    (applyOps EmailBuilder.new [BuilderOp.«to» "niclas@mobility46.se"]).build =
      .ok { «from» :=
              (applyOps EmailBuilder.new
                [BuilderOp.«to» "niclas@mobility46.se"]).«from»
          , «to» := joinComma (toArgs [BuilderOp.«to» "niclas@mobility46.se"])
          , subject :=
              ((applyOps EmailBuilder.new
                [BuilderOp.«to» "niclas@mobility46.se"]).subject).getD
                "no subject"
          , body :=
              (applyOps EmailBuilder.new
                [BuilderOp.«to» "niclas@mobility46.se"]).body } :=
  (build_characterization [BuilderOp.«to» "niclas@mobility46.se"]).2.1
    (by decide)

/-- C4 counterexample: appending the single empty-string recipient passes
the build-time check (the recipient list is non-empty), yet the
constructed `Email` has `to` equal to the empty string — the claimed
invariant fails. -/
theorem build_allows_empty_to :
    (EmailBuilder.new.«to» "").build =
      .ok { «from» := none, «to» := "", subject := "no subject"
          , body := none } ∧
    ({ «from» := none, «to» := "", subject := "no subject"
     , body := none } : Email).«to» = "" :=
  ⟨rfl, rfl⟩

/-- C4 (amended): for every successfully built `Email`, `to` is empty
exactly when the appended recipients were the single empty string; with
any other non-empty recipient sequence `to` is non-empty.  Build time only
rules out zero recipients, not empty recipient strings. -/
theorem built_to_empty_iff (ops : List BuilderOp) (e : Email)
    (h : (applyOps EmailBuilder.new ops).build = .ok e) :
    e.«to» = "" ↔ toArgs ops = [""] := by
  have hr : (applyOps EmailBuilder.new ops).recipients = toArgs ops := by
    simpa [EmailBuilder.new] using recipients_applyOps ops EmailBuilder.new
  unfold EmailBuilder.build at h
  rw [hr] at h
  cases ht : toArgs ops with
  | nil => rw [ht] at h; simp at h
  | cons a l =>
    rw [ht] at h
    simp only [List.isEmpty_cons, Bool.false_eq_true, if_false,
      Except.ok.injEq] at h
    rw [← h]
    exact joinComma_eq_empty_iff (a :: l) (by simp)

/-- Witness for the amended C4: the single-empty-recipient build has an
empty `to`. -/
theorem built_to_empty_iff_witness :
    (({ «from» := none, «to» := "", subject := "no subject"
      , body := none } : Email).«to» = "") ↔
      toArgs [BuilderOp.«to» ""] = [""] :=
  built_to_empty_iff [BuilderOp.«to» ""] _ rfl

/-- C10: the comma-join of recipients is not injective — the single
recipient `"a,b"` and the two recipients `"a"`, `"b"` are distinct
recipient sequences, yet `build` turns both into the very same `Email`,
with `to` equal to `"a,b"`. -/
theorem comma_join_not_injective :
    toArgs [BuilderOp.«to» "a,b"] ≠
      toArgs [BuilderOp.«to» "a", BuilderOp.«to» "b"] ∧
    (applyOps EmailBuilder.new [BuilderOp.«to» "a,b"]).build =
      (applyOps EmailBuilder.new
        [BuilderOp.«to» "a", BuilderOp.«to» "b"]).build ∧
    (applyOps EmailBuilder.new [BuilderOp.«to» "a,b"]).build =
      .ok { «from» := none, «to» := "a,b", subject := "no subject"
          , body := none } :=
  ⟨by decide, rfl, rfl⟩

/-- C1 counterexample: setting an HTML body and then a plain-text body
does not replace the body — the finalized email's body keeps both fields,
and its wire serialization carries both `html` and `text`. -/
theorem html_then_text_keeps_html :
    (((EmailBuilder.new.«to» "someone").html_body "HELLO").text_body
        "plain").build =
      .ok { «from» := none, «to» := "someone", subject := "no subject"
          , body := some { html := some "HELLO", text := some "plain" } } ∧
    Email.formPairs
      { «from» := none, «to» := "someone", subject := "no subject"
      , body := some { html := some "HELLO", text := some "plain" } } =
      [("to", "someone"), ("subject", "no subject"), ("html", "HELLO"),
       ("text", "plain")] :=
  ⟨rfl, rfl⟩

/-- Setting HTML and then text always yields a body with both fields
populated, whatever the builder's previous body was. -/
theorem body_html_then_text (b : EmailBuilder) (h t : String) :
    ((b.html_body h).text_body t).body =
      some { html := some h, text := some t } := by
  cases hb : b.body <;>
    simp [EmailBuilder.html_body, EmailBuilder.text_body, hb]

/-- C1 (amended): after `html_body` followed by `text_body`, a successful
build produces an email whose body holds both the HTML and the text, and
whose wire serialization ends with both the `html` and the `text` field —
`text_body` only sets the `text` slot of the existing body, it does not
replace the body. -/
theorem text_after_html_serializes_both (b : EmailBuilder) (h t : String)
    (e : Email) (hbuild : ((b.html_body h).text_body t).build = .ok e) :
    e.body = some { html := some h, text := some t } ∧
    e.formPairs =
      (match e.«from» with
       | some f => [("from", f)]
       | none => []) ++
        [("to", e.«to»), ("subject", e.subject), ("html", h), ("text", t)] := by
  have hbody := body_html_then_text b h t
  unfold EmailBuilder.build at hbuild
  split at hbuild
  · simp at hbuild
  · simp only [Except.ok.injEq] at hbuild
    subst hbuild
    refine ⟨hbody, ?_⟩
    cases hf : b.«from» <;>
      simp [Email.formPairs, hbody, hf, EmailBuilder.html_body,
        EmailBuilder.text_body]

/-- Witness for the amended C1: a concrete build whose serialization ends
in both body fields. -/
theorem text_after_html_serializes_both_witness :
    ({ «from» := none, «to» := "someone", subject := "no subject"
     , body := some { html := some "HELLO", text := some "plain" } }
        : Email).body =
      some { html := some "HELLO", text := some "plain" } ∧
    Email.formPairs
      { «from» := none, «to» := "someone", subject := "no subject"
      , body := some { html := some "HELLO", text := some "plain" } } =
      [("to", "someone"), ("subject", "no subject"), ("html", "HELLO"),
       ("text", "plain")] :=
  text_after_html_serializes_both (EmailBuilder.new.«to» "someone") "HELLO"
    "plain" _ rfl

/-! ### The Mailer claims -/

/-- A URL parser accepting every string unchanged, used to instantiate
the external parser in concrete witnesses. -/
def acceptUrl : UrlParser := fun s => .ok s

/-- A concrete process environment holding both required variables. -/
def envBoth : String → Option String := fun v =>
  if v = "MAILER46_DOMAIN" then some "fakedomain"
  else if v = "MAILER46_TOKEN" then some "tomatotoken"
  else none

/-- The mailer configuration that `new_with_mg_url` computes for the test
server, domain `fakedomain` and token `tomatotoken` (the authorization
value matches the repository test's expected header). -/
def mailerFake : Mailer :=
  { «from» := "noreply@fakedomain"
  , messages_url := "http://server/v3/fakedomain/messages"
  , authHeader := "Basic YXBpOnRvbWF0b3Rva2Vu" }

/-- A concrete email without an explicit sender. -/
def emailFake : Email :=
  { «from» := none, «to» := "niclas@mobility46.se", subject := "test email!"
  , body := some { html := none, text := some "a body" } }

/-- A transport that always answers 500 with a diagnostic body. -/
def transport500 : Transport :=
  fun _ => .ok { status := 500, body := "Internal Server Error" }

/-- A JSON codec that parses nothing. -/
def noJson : JsonCodec := fun _ => none

/-- The successful reply body of the repository's mock server, with the
message id and an extra human-readable field. -/
def replyBody : String :=
  "\x7b\"id\":\"m1\",\"message\":\"Queued. Thank you.\"\x7d"

/-- The JSON value of `replyBody`. -/
def replyJson : Json :=
  .obj [("id", .str "m1"), ("message", .str "Queued. Thank you.")]

/-- A JSON codec that parses exactly `replyBody`. -/
def jsonOk : JsonCodec :=
  fun s => if s = replyBody then some replyJson else none

/-- A transport that always answers 200 with `replyBody`. -/
def transport200 : Transport :=
  fun _ => .ok { status := 200, body := replyBody }

/-- C8: the constructor computes the messages endpoint by formatting
`<base>/v3/<domain>/messages` (with `MG_BASE_URL` the default base used
by `Mailer::new`), fails with the configuration-invalid error
`InvalidVar("domain", msg)` exactly when the URL parser rejects that
string, and on success stores the authorization value
`Basic <base64("api:" ++ token)>` — whose header-value construction can
never fail. -/
theorem new_with_mg_url_characterization (parseUrl : UrlParser)
    (mg_url domain token : String) :
    MG_BASE_URL = "https://api.eu.mailgun.net" ∧
    Mailer.new parseUrl domain token =
      Mailer.new_with_mg_url parseUrl MG_BASE_URL domain token ∧
    (∀ msg, parseUrl (mg_url ++ "/v3/" ++ domain ++ "/messages") = .error msg →
      Mailer.new_with_mg_url parseUrl mg_url domain token =
        .error (.InvalidVar "domain" msg)) ∧
    (∀ u, parseUrl (mg_url ++ "/v3/" ++ domain ++ "/messages") = .ok u →
      Mailer.new_with_mg_url parseUrl mg_url domain token =
        .ok { «from» := "noreply@" ++ domain, messages_url := u
            , authHeader := "Basic " ++ base64Encode ("api:" ++ token) }) := by
  refine ⟨rfl, rfl, ?_, ?_⟩
  · intro msg hmsg
    simp [Mailer.new_with_mg_url, hmsg]
  · intro u hu
    simp [Mailer.new_with_mg_url, hu, headerValue_basic_ok]

/-- Witness for C8: the constructor applied to the test-server base URL,
domain and token yields the expected configuration. -/
theorem new_with_mg_url_characterization_witness :
    Mailer.new_with_mg_url acceptUrl "http://server" "fakedomain"
        "tomatotoken" =
      .ok { «from» := "noreply@" ++ "fakedomain"
          , messages_url :=
              "http://server" ++ "/v3/" ++ "fakedomain" ++ "/messages"
          , authHeader := "Basic " ++ base64Encode ("api:" ++ "tomatotoken") } :=
  (new_with_mg_url_characterization acceptUrl "http://server" "fakedomain"
      "tomatotoken").2.2.2 _ rfl

example :
    Mailer.new_with_mg_url acceptUrl "http://server" "fakedomain"
      "tomatotoken" = .ok mailerFake := rfl

/-- C9: `from_env` fails with `EnvVarMissing` naming the absent variable
whenever `MAILER46_DOMAIN` (checked first) or `MAILER46_TOKEN` is absent
from the environment, and with both present delegates to `Mailer::new`
with their values. -/
theorem from_env_characterization (parseUrl : UrlParser)
    (env : String → Option String) :
    (env "MAILER46_DOMAIN" = none →
      Mailer.from_env parseUrl env =
        .error (.EnvVarMissing "MAILER46_DOMAIN")) ∧
    (∀ d, env "MAILER46_DOMAIN" = some d → env "MAILER46_TOKEN" = none →
      Mailer.from_env parseUrl env =
        .error (.EnvVarMissing "MAILER46_TOKEN")) ∧
    (∀ d t, env "MAILER46_DOMAIN" = some d → env "MAILER46_TOKEN" = some t →
      Mailer.from_env parseUrl env = Mailer.new parseUrl d t) := by
  refine ⟨?_, ?_, ?_⟩ <;> intros <;> simp [Mailer.from_env, *]

/-- Witness for C9: with both variables present, `from_env` equals the
primary constructor on their values. -/
theorem from_env_characterization_witness :
    Mailer.from_env acceptUrl envBoth =
      Mailer.new acceptUrl "fakedomain" "tomatotoken" :=
  (from_env_characterization acceptUrl envBoth).2.2 "fakedomain"
    "tomatotoken" rfl rfl

/-- C2 (per `lib.rs`): whenever the transport delivers a response whose
status is not 200, `send` returns the non-200 error carrying both that
status code and the response body read as text, and no `MessageId`. -/
theorem non200_reply_carries_status_and_body (jsonParse : JsonCodec)
    (transport : Transport) (m : Mailer) (e : Email) (res : HttpResponse)
    (hres : transport (m.request (e.fillFrom m)) = .ok res)
    (hst : res.status ≠ 200) :
    Email.send jsonParse transport e m =
      .error (.Non200Reply res.status res.body) := by
  simp [Email.send, Mailer.send, hres, handleResponse, hst]

/-- Witness for C2: a 500 reply yields the error carrying `500` and the
body text. -/
theorem non200_reply_witness :
    Email.send noJson transport500 emailFake mailerFake =
      .error (.Non200Reply 500 "Internal Server Error") :=
  non200_reply_carries_status_and_body noJson transport500 mailerFake
    emailFake { status := 500, body := "Internal Server Error" } rfl
    (by decide)

/-- Entries whose key is not `"id"` are dropped by the `id` filter. -/
theorem filter_id_nil (L : List (String × Json))
    (hL : ∀ p ∈ L, p.1 ≠ "id") :
    L.filter (fun p => p.1 == "id") = [] := by
  induction L with
  | nil => rfl
  | cons x xs ih =>
    rw [List.filter_cons]
    have hx : (x.1 == "id") = false :=
      beq_eq_false_iff_ne.mpr (hL x (by simp))
    simp only [hx, Bool.false_eq_true, if_false]
    exact ih fun p hp => hL p (by simp [hp])

/-- C7: on a 200 response, `send` fails with the decode error when the
body is not JSON or the JSON does not carry the `id` field as required,
and returns the identifier wrapped as `MessageId` when it does; the
derived `MailReply` parsing accepts an object with the `id` string field
surrounded by arbitrary other fields. -/
theorem status200_reply_parsing (jsonParse : JsonCodec)
    (transport : Transport) (m : Mailer) (e : Email) (res : HttpResponse)
    (hres : transport (m.request (e.fillFrom m)) = .ok res)
    (hst : res.status = 200) :
    (jsonParse res.body = none →
      Email.send jsonParse transport e m =
        .error (.Http "error decoding response body")) ∧
    (∀ j, jsonParse res.body = some j → MailReply.deserialize j = none →
      Email.send jsonParse transport e m =
        .error (.Http "error decoding response body")) ∧
    (∀ j reply, jsonParse res.body = some j →
      MailReply.deserialize j = some reply →
      Email.send jsonParse transport e m = .ok { id := reply.id }) ∧
    (∀ pre post s, (∀ p ∈ pre ++ post, p.1 ≠ "id") →
      MailReply.deserialize (.obj (pre ++ ("id", Json.str s) :: post)) =
        some { id := s }) := by
  refine ⟨?_, ?_, ?_, ?_⟩
  · intro hj
    simp [Email.send, Mailer.send, hres, handleResponse, hst, hj]
  · intro j hj hd
    simp [Email.send, Mailer.send, hres, handleResponse, hst, hj, hd]
  · intro j reply hj hd
    simp [Email.send, Mailer.send, hres, handleResponse, hst, hj, hd]
  · intro pre post s hp
    have hpre : pre.filter (fun p => p.1 == "id") = [] :=
      filter_id_nil pre fun p h => hp p (List.mem_append_left _ h)
    have hpost : post.filter (fun p => p.1 == "id") = [] :=
      filter_id_nil post fun p h => hp p (List.mem_append_right _ h)
    simp [MailReply.deserialize, List.filter_append, List.filter_cons,
      hpre, hpost]

/-- Witness for C7: the mock server's 200 reply (id plus an extra
`message` field) makes `send` return the wrapped id. -/
theorem status200_reply_parsing_witness :
    Email.send jsonOk transport200 emailFake mailerFake =
      .ok { id := "m1" } :=
  (status200_reply_parsing jsonOk transport200 mailerFake emailFake
      { status := 200, body := replyBody } rfl rfl).2.2.1 replyJson
    { id := "m1" } (by simp [jsonOk]) rfl

/-- The sender a successfully constructed mailer holds is
`noreply@<domain>`. -/
theorem new_with_mg_url_from (parseUrl : UrlParser)
    (mg_url domain token : String) (m : Mailer)
    (hm : Mailer.new_with_mg_url parseUrl mg_url domain token = .ok m) :
    m.«from» = "noreply@" ++ domain := by
  cases hp : parseUrl (mg_url ++ "/v3/" ++ domain ++ "/messages") with
  | error msg => simp [Mailer.new_with_mg_url, hp] at hm
  | ok u =>
    simp [Mailer.new_with_mg_url, hp, headerValue_basic_ok] at hm
    rw [← hm]

/-- C6: for a mailer built over `domain`, sending an email whose sender
was never set serializes the `from` field to exactly `noreply@<domain>`
(never absent, never empty), while an email with a sender keeps it;
`Email::send` performs the filling before handing over to
`Mailer::send`. -/
theorem default_sender_filled (parseUrl : UrlParser)
    (mg_url domain token : String) (m : Mailer)
    (hm : Mailer.new_with_mg_url parseUrl mg_url domain token = .ok m)
    (e : Email) :
    (∀ jp tr, Email.send jp tr e m =
      Mailer.send jp tr m (e.fillFrom m)) ∧
    (e.«from» = none →
      (e.fillFrom m).«from» = some ("noreply@" ++ domain) ∧
      (e.fillFrom m).formPairs.lookup "from" =
        some ("noreply@" ++ domain) ∧
      ¬ ("noreply@" ++ domain) = "") ∧
    (∀ f, e.«from» = some f →
      (e.fillFrom m).formPairs.lookup "from" = some f) := by
  have hfrom := new_with_mg_url_from parseUrl mg_url domain token m hm
  refine ⟨fun jp tr => rfl, ?_, ?_⟩
  · intro hf
    refine ⟨?_, ?_, ?_⟩
    · simp [Email.fillFrom, hf, hfrom]
    · simp [Email.fillFrom, hf, hfrom, Email.formPairs, List.lookup]
    · intro hempty
      have hlen := congrArg String.length hempty
      rw [String.length_append] at hlen
      have h8 : ("noreply@" : String).length = 8 := rfl
      simp [h8] at hlen
  · intro f hf
    simp [Email.fillFrom, hf, Email.formPairs, List.lookup]

/-- Witness for C6: the sender-less test email sent through the test
mailer serializes `from` to `noreply@fakedomain`. -/
theorem default_sender_filled_witness :
    (emailFake.fillFrom mailerFake).formPairs.lookup "from" =
      some ("noreply@" ++ "fakedomain") :=
  ((default_sender_filled acceptUrl "http://server" "fakedomain"
      "tomatotoken" mailerFake rfl emailFake).2.1 rfl).2.1

/-- C5: the email with sender `niclas`, recipient `someoneelse`, subject
`Subject` and HTML body `HELLO` builds exactly as expected, and its wire
serialization is exactly the four pairs `from=niclas`, `to=someoneelse`,
`subject=Subject`, `html=HELLO` — no `text` pair and no nesting. -/
theorem serialize_email_exact_fields :
    ((((EmailBuilder.new.set_from "niclas").«to» "someoneelse").set_subject
        "Subject").html_body "HELLO").build =
      .ok { «from» := some "niclas", «to» := "someoneelse"
          , subject := "Subject"
          , body := some { html := some "HELLO", text := none } } ∧
    Email.formPairs
      { «from» := some "niclas", «to» := "someoneelse", subject := "Subject"
      , body := some { html := some "HELLO", text := none } } =
      [("from", "niclas"), ("to", "someoneelse"), ("subject", "Subject"),
       ("html", "HELLO")] :=
  ⟨rfl, rfl⟩

end Mailgun46
